import Mathlib

/-!
Shallow embedding of `dashmachine/dm/__init__.py` (DashMachine 0.7): the
`DashMachine` rebuild orchestrator.  File-system reads and library calls that
happen during one `build()` invocation (TOML parses, `os.listdir`, `sass.compile`)
are supplied as an explicit environment (`BuildEnv`); exceptions escaping a call
are modelled by an `Option String` second component of the result (`some msg`
means the Python call raised).  The collaborator classes imported by the module
(`Settings`, `DataSourceHandler`, `Dashboard`, `FileWatcher`, the path constants
and `DEFAULT_QUERY_PROVIDERS`) are not part of the given source tree and are
modelled from the specification, each marked `Modelled from the spec:`.
-/

/-- A card definition: the parsed value of one card entry of a dashboard TOML
file.  Its internal structure is irrelevant to the orchestrator. -/
abbrev Card := String

/-- Modelled from the spec: the query-provider registry (a lookup table of
providers).  Wrapped in a structure so adopting versus falling back to the
default registry is observable. -/
structure QueryProviders where
  providers : List (String × String)
  deriving DecidableEq, Repr

/-- Modelled from the spec: `DEFAULT_QUERY_PROVIDERS` from `dm/utils.py` (not
under the given source tree); the spec (§4.6 step 2) calls it the built-in
default registry.  Its concrete contents are irrelevant to every claim. -/
def DEFAULT_QUERY_PROVIDERS : QueryProviders := ⟨[]⟩

-- Modelled from the spec: path constants from `dashmachine/paths.py` (not under
-- the given source tree).  Only their identities matter.
def dashboards_folder : String := "/config/dashboards"

def settings_toml : String := "/config/settings.toml"

def data_sources_toml : String := "/config/data_sources.toml"

def shared_cards_toml : String := "/config/shared_cards.toml"

def users_toml : String := "/config/users.toml"

def custom_themes_folder : String := "/config/themes"

def system_themes_folder : String := "/dashmachine/static/css/themes"

def static_folder : String := "/dashmachine/static"

def user_platform : String := "/config/platform"

def user_templates_folder : String := "/config/user_templates"

def user_markdown_folder : String := "/config/user_markdown"

/-- Modelled from the spec: the default theme name, the "safe default" a failed
Settings parse falls back to (§4.2).  Its concrete value is irrelevant. -/
def DEFAULT_THEME : String := "light"

/-- Modelled from the spec: the successful outcome of parsing the global
settings source: the active theme name and, when the file defines one, a
query-provider registry override (`hasattr(settings, "query_providers")`). -/
structure SettingsData where
  theme : String
  queryProviders : Option QueryProviders
  deriving DecidableEq, Repr

/-- Modelled from the spec: the `Settings` object (`dm/settings.py`, not under
the given source tree).  §4.2: resolved global options plus an optional error
value.  `readToml` records whether this instance parsed the settings source
(`Settings()` versus `Settings(read_toml=False)`). -/
structure Settings where
  theme : String
  queryProviders : Option QueryProviders
  error : Option String
  readToml : Bool
  deriving DecidableEq, Repr

/-- Modelled from the spec: the `Settings` constructor.  §4.2: with
`readToml = true` it parses the settings source; on success it returns a
populated object with `error = none`, on failure it logs and returns safe
defaults with `error = some message` — it never raises.  With
`readToml = false` (`Settings(read_toml=False)`) it is a fresh default instance
constructed without reading the settings source at all. -/
def Settings.load (readToml : Bool) (parse : Except String SettingsData) : Settings :=
  if readToml then
    match parse with
    | .ok d => { theme := d.theme, queryProviders := d.queryProviders, error := none, readToml := true }
    | .error e => { theme := DEFAULT_THEME, queryProviders := none, error := some e, readToml := true }
  else
    { theme := DEFAULT_THEME, queryProviders := none, error := none, readToml := false }

/-- Modelled from the spec: the `DataSourceHandler` object
(`dm/data_source_handler.py`, not under the given source tree).  §3/§4.3: a
lookup table from data-source name to configuration, plus an optional error. -/
structure DataSourceHandler where
  dataSources : List (String × String)
  error : Option String
  deriving DecidableEq, Repr

/-- Modelled from the spec: the `DataSourceHandler` constructor.  §4.3: same
failure contract as Settings, producing an empty lookup table plus an error
message on failure; never raises. -/
def DataSourceHandler.load (parse : Except String (List (String × String))) : DataSourceHandler :=
  match parse with
  | .ok table => { dataSources := table, error := none }
  | .error e => { dataSources := [], error := some e }

/-- Python's `file.replace(".toml", "")` on the character list: delete every
(non-overlapping, leftmost-first) occurrence of the substring `.toml`. -/
def dropTomlAux : List Char → List Char
  | '.' :: 't' :: 'o' :: 'm' :: 'l' :: rest => dropTomlAux rest
  | c :: cs => c :: dropTomlAux cs
  | [] => []

/-- The mapping key the orchestrator derives from a dashboard file name:
`file.replace(".toml", "")` (line 117 of the source). -/
def dashboardKey (file : String) : String :=
  ⟨dropTomlAux file.toList⟩

/-- Modelled from the spec: the `Dashboard` object (`dm/dashboard.py`, not under
the given source tree).  §3: a name derived from the source file's base name, an
ordered card sequence, an optional error value (injectable by the orchestrator),
and the path of its source file.  `createdGen` models object identity: each
rebuild generation creates fresh `Dashboard` objects, stamped with the
generation counter of the build that created them. -/
structure Dashboard where
  name : String
  toml_path : String
  cards : List Card
  error : Option String
  createdGen : Nat
  deriving DecidableEq, Repr

/-- Modelled from the spec: the `Dashboard` loader, `Dashboard(file=file, dm=self)`.
§4.5: parses the dashboard's own card sequence; on card-definition parse failure
the `Dashboard` still exists but reports an error and an empty-or-partial card
sequence.  The per-file parse outcome is supplied by the environment.  The
spec's loader contract has no side effect on the orchestrator. -/
def Dashboard.loadFile (file : String) (gen : Nat) (parse : Except String (List Card)) : Dashboard :=
  match parse with
  | .ok cs =>
      { name := dashboardKey file, toml_path := dashboards_folder ++ "/" ++ file,
        cards := cs, error := none, createdGen := gen }
  | .error e =>
      { name := dashboardKey file, toml_path := dashboards_folder ++ "/" ++ file,
        cards := [], error := some e, createdGen := gen }

/-- Modelled from the spec: the event-class filter of a Watch Subscription
(§4.1): any modification of a file (the `FileWatcher` default), an entry added
under a directory (`event="added"`), or any filesystem event (`event="all"`). -/
inductive WatchEvent where
  | modified
  | added
  | all
  deriving DecidableEq, Repr

/-- The callback a Watch Subscription is bound to: either the orchestrator's
full `build`, or one dashboard's narrower `load_cards` routine (identified by
the dashboard bound to the method). -/
inductive WatchCallback where
  | buildAll
  | loadCards (dashboard : String)
  deriving DecidableEq, Repr

/-- Modelled from the spec: a Watch Subscription (`dm/file_watcher.py`, not
under the given source tree).  §4.1: binds a filesystem path, an event-class
filter and a callback.  Inert data here: registrations are recorded, their
asynchronous firing is outside the embedding. -/
structure FileWatcher where
  path : String
  event : WatchEvent
  callback : WatchCallback
  deriving DecidableEq, Repr

/-- The file-system and library outcomes visible to one `build()` invocation. -/
structure BuildEnv where
  /-- outcome of parsing `settings.toml` (inside `Settings()`) -/
  settingsParse : Except String SettingsData
  /-- `os.listdir(custom_themes_folder)` -/
  customThemes : List String
  /-- `sass.compile(filename=...)`: compiled css, or the raised `CompileError` -/
  sassCompile : String → Except String String
  /-- outcome of parsing `data_sources.toml` (inside `DataSourceHandler()`) -/
  dataSourcesParse : Except String (List (String × String))
  /-- `toml.load(shared_cards_toml)`: the table, or the raised exception -/
  sharedCardsParse : Except String (List (String × Card))
  /-- `os.listdir(dashboards_folder)` -/
  dashboardFiles : List String
  /-- per-file outcome of parsing a dashboard file's cards (inside `Dashboard`) -/
  dashboardParse : String → Except String (List Card)

/-- Lines 152-159 of the source: pick the theme's scss file from the custom
themes folder when present there, else from the system themes folder. -/
def themeScssFile (theme : String) (customThemes : List String) : String :=
  if (theme ++ ".scss") ∈ customThemes then
    custom_themes_folder ++ "/" ++ theme ++ ".scss"
  else
    system_themes_folder ++ "/" ++ theme ++ ".scss"

/-- Lines 142-167, `compile_theme`: compile the selected scss file.  `.ok css`
means the compiled stylesheet was written to `bootstrap.min.css`; `.error e`
means `sass.compile` raised a `CompileError` (uncaught in the source, and the
write never happens). -/
def compile_theme (theme : String) (customThemes : List String)
    (sassCompile : String → Except String String) : Except String String :=
  sassCompile (themeScssFile theme customThemes)

/-- Lines 173-188, `load_shared_cards` (a static method): `toml.load` the
shared-cards file; on any exception, log and return the empty table. -/
def load_shared_cards (parse : Except String (List (String × Card))) : List (String × Card) :=
  match parse with
  | .ok shared_cards => shared_cards
  | .error _ => []

/-- Python dict assignment `m[k] = v`: replace the value at an existing key in
place, else append the new binding (insertion order preserved). -/
def dictInsert (m : List (String × Dashboard)) (k : String) (v : Dashboard) :
    List (String × Dashboard) :=
  if k ∈ m.map Prod.fst then
    m.map (fun p => if p.1 = k then (k, v) else p)
  else
    m ++ [(k, v)]

/-- Lines 115-117 of the source, the dashboard-loading loop, with accumulator:
`for file in os.listdir(dashboards_folder): dashboards[file.replace(".toml", "")] = Dashboard(file=file, dm=self)`. -/
def loadDashboardsFrom (gen : Nat) (parse : String → Except String (List Card))
    (acc : List (String × Dashboard)) : List String → List (String × Dashboard)
  | [] => acc
  | file :: rest =>
      loadDashboardsFrom gen parse
        (dictInsert acc (dashboardKey file) (Dashboard.loadFile file gen (parse file))) rest

/-- The dashboard mapping built by lines 115-117 from the directory listing. -/
def loadDashboards (gen : Nat) (parse : String → Except String (List Card))
    (files : List String) : List (String × Dashboard) :=
  loadDashboardsFrom gen parse [] files

/-- Lines 121-122 / 125-126 of the source: `for dboard_name, dboard in
self.dashboards.items(): dboard.error = err` — set every dashboard's error. -/
def stampError (m : List (String × Dashboard)) (e : Option String) :
    List (String × Dashboard) :=
  m.map (fun p => (p.1, { p.2 with error := e }))

/-- Lines 119-126 of the source, the error-propagation passes in order: first
stamp the Settings error (when truthy), then stamp the DataSourceHandler error
(when truthy) — the second pass overwrites the first. -/
def stampBuildErrors (m : List (String × Dashboard))
    (settingsErr dsErr : Option String) : List (String × Dashboard) :=
  let m1 := if settingsErr.isSome then stampError m settingsErr else m
  if dsErr.isSome then stampError m1 dsErr else m1

/-- The mutable state of the `DashMachine` object.  Fields that
`DashMachine.__init__` sets to `None` before the first build (`settings`,
`data_source_handler`, `dashboards`) are `Option`s; `main_dashboard` is an
`Option` because it is `None` and stays so.  `compiled_css` is the content of
the `bootstrap.min.css` output file (shared mutable disk state written by
`compile_theme`); `gen` is the rebuild-generation counter backing
`Dashboard.createdGen`. -/
structure DashMachine where
  query_providers : QueryProviders
  config_modifier_error : Option String
  settings : Option Settings
  data_source_handler : Option DataSourceHandler
  dashboards : Option (List (String × Dashboard))
  main_dashboard : Option Dashboard
  shared_cards : List (String × Card)
  compiled_css : Option String
  file_watchers : List FileWatcher
  dashboard_file_watchers : List FileWatcher
  gen : Nat
  deriving DecidableEq, Repr

/-- Lines 88-128 of the source, `build()`.  The returned pair is (state after
the call, exception escaping the call).  The sequential mutations are rendered
as their net effect on the state record; each field is annotated with its
source line.  When `sass.compile` raises (line 162, uncaught), the mutations
already performed (lines 96-103) persist and the exception propagates. -/
def DashMachine.build (dm : DashMachine) (env : BuildEnv) : DashMachine × Option String :=
  match compile_theme (Settings.load true env.settingsParse).theme env.customThemes env.sassCompile with
  | .error e =>
      -- lines 96-103 ran; line 162 raised inside compile_theme (line 106)
      ({ dm with
          config_modifier_error := none,                        -- line 96
          settings := some (Settings.load true env.settingsParse),  -- line 99
          query_providers :=                                    -- lines 100-103
            (Settings.load true env.settingsParse).queryProviders.getD DEFAULT_QUERY_PROVIDERS },
       some e)
  | .ok css =>
      ({ dm with
          config_modifier_error := none,                        -- line 96
          settings :=                                           -- lines 99, 120-123
            some (if (Settings.load true env.settingsParse).error.isSome then
                    Settings.load false env.settingsParse       -- line 123
                  else
                    Settings.load true env.settingsParse),
          query_providers :=                                    -- lines 100-103
            (Settings.load true env.settingsParse).queryProviders.getD DEFAULT_QUERY_PROVIDERS,
          compiled_css := some css,                             -- lines 161-167
          data_source_handler := some (DataSourceHandler.load env.dataSourcesParse),  -- line 109
          shared_cards := load_shared_cards env.sharedCardsParse,  -- line 112
          dashboards :=                                         -- lines 115-117, 119-126
            some (stampBuildErrors
                    (loadDashboards (dm.gen + 1) env.dashboardParse env.dashboardFiles)
                    (Settings.load true env.settingsParse).error
                    (DataSourceHandler.load env.dataSourcesParse).error),
          gen := dm.gen + 1 },
       none)

/-- Lines 130-140 of the source, `get_dashboard_by_name`:
`self.dashboards[name] if self.dashboards.get(name) else self.main_dashboard`.
A `Dashboard` object is truthy, so a found key returns its dashboard and any
miss returns `self.main_dashboard`.  The outer `none` arm (`self.dashboards`
still `None`) exists only before the first build, where the method is never
invoked. -/
def DashMachine.get_dashboard_by_name (dm : DashMachine) (name : String) : Option Dashboard :=
  match dm.dashboards with
  | some boards =>
      match boards.lookup name with
      | some d => some d
      | none => dm.main_dashboard
  | none => dm.main_dashboard

/-- Lines 169-171 of the source, `change_theme`: set `self.settings.theme` and
call `compile_theme` — nothing else.  The scss lookup and compile outcome for
this call are passed explicitly. -/
def DashMachine.change_theme (dm : DashMachine) (customThemes : List String)
    (sassCompile : String → Except String String) (theme_name : String) :
    DashMachine × Option String :=
  match dm.settings with
  | none => (dm, some "AttributeError")
  | some s =>
      match compile_theme theme_name customThemes sassCompile with
      | .error e => ({ dm with settings := some { s with theme := theme_name } }, some e)
      | .ok css =>
          ({ dm with settings := some { s with theme := theme_name },
                     compiled_css := some css }, none)

/-- Lines 50-59 of the source: the field values `DashMachine.__init__` sets
before its first `build()`. -/
def freshDashMachine : DashMachine :=
  { query_providers := DEFAULT_QUERY_PROVIDERS,  -- line 52
    config_modifier_error := none,               -- line 54, fresh ConfigModifier
    settings := none,                            -- line 55
    data_source_handler := none,                 -- line 56
    dashboards := none,                          -- line 57
    main_dashboard := none,                      -- line 58
    shared_cards := [],                          -- line 59
    compiled_css := none,
    file_watchers := [],
    dashboard_file_watchers := [],
    gen := 0 }

/-- Lines 29-86 of the source, `DashMachine.__init__`: start from the fresh
field values, run the first `build()` (line 60), then register the global file
watchers (lines 62-81) and one watcher per dashboard of the freshly built
mapping, bound to that dashboard's `load_cards` (lines 82-86).  If `build()`
raises, `__init__` raises and no watcher is registered. -/
def DashMachine.init (env : BuildEnv) : DashMachine × Option String :=
  match DashMachine.build freshDashMachine env with  -- line 60
  | (dm, some e) => (dm, some e)
  | (dm, none) =>
      ({ dm with
          file_watchers :=                         -- lines 63-81
            [ ⟨settings_toml, .modified, .buildAll⟩,
              ⟨dashboards_folder, .added, .buildAll⟩,
              ⟨data_sources_toml, .modified, .buildAll⟩,
              ⟨shared_cards_toml, .modified, .buildAll⟩,
              ⟨users_toml, .modified, .buildAll⟩,
              ⟨custom_themes_folder, .all, .buildAll⟩,
              ⟨user_platform, .all, .buildAll⟩,
              ⟨user_templates_folder, .all, .buildAll⟩,
              ⟨user_markdown_folder, .all, .buildAll⟩ ],
          dashboard_file_watchers :=               -- lines 82-86
            (dm.dashboards.getD []).map
              (fun p => FileWatcher.mk p.2.toml_path .modified (.loadCards p.2.name)) },
       none)

/-! ### Helper lemmas about the dashboard-mapping combinators -/

/-- Stamping an error changes no key. -/
theorem stampError_keys (m : List (String × Dashboard)) (e : Option String) :
    (stampError m e).map Prod.fst = m.map Prod.fst := by
  induction m with
  | nil => rfl
  | cons p m ih => simp only [stampError, List.map_cons] at *; rw [ih]

/-- Every entry of a stamped mapping carries the stamped error. -/
theorem stampError_error (m : List (String × Dashboard)) (e : Option String) :
    ∀ p ∈ stampError m e, p.2.error = e := by
  intro p hp
  obtain ⟨q, _, rfl⟩ := List.mem_map.mp hp
  rfl

/-- Stamping preserves each entry's creation generation. -/
theorem stampError_origin (m : List (String × Dashboard)) (e : Option String) :
    ∀ p ∈ stampError m e, ∃ q ∈ m, p.2.createdGen = q.2.createdGen := by
  intro p hp
  obtain ⟨q, hq, rfl⟩ := List.mem_map.mp hp
  exact ⟨q, hq, rfl⟩

/-- The two error-propagation passes change no key. -/
theorem stampBuildErrors_keys (m : List (String × Dashboard)) (a b : Option String) :
    (stampBuildErrors m a b).map Prod.fst = m.map Prod.fst := by
  simp only [stampBuildErrors]
  split_ifs <;> simp [stampError_keys]

/-- When the DataSourceHandler reported an error, every dashboard ends up
carrying it (whatever the Settings pass did before). -/
theorem stampBuildErrors_ds_error (m : List (String × Dashboard)) (a : Option String)
    (e : String) : ∀ p ∈ stampBuildErrors m a (some e), p.2.error = some e := by
  intro p hp
  simp only [stampBuildErrors, Option.isSome_some, if_true] at hp
  exact stampError_error _ _ p hp

/-- When only Settings reported an error, every dashboard ends up carrying it. -/
theorem stampBuildErrors_settings_error (m : List (String × Dashboard)) (e : String) :
    ∀ p ∈ stampBuildErrors m (some e) none, p.2.error = some e := by
  intro p hp
  simp only [stampBuildErrors, Option.isSome_some, Option.isSome_none, if_true,
    Bool.false_eq_true, if_false] at hp
  exact stampError_error _ _ p hp

/-- The error-propagation passes preserve each entry's creation generation. -/
theorem stampBuildErrors_origin (m : List (String × Dashboard)) (a b : Option String) :
    ∀ p ∈ stampBuildErrors m a b, ∃ q ∈ m, p.2.createdGen = q.2.createdGen := by
  intro p hp
  simp only [stampBuildErrors] at hp
  split_ifs at hp
  · obtain ⟨q, hq, hg⟩ := stampError_origin _ _ p hp
    obtain ⟨r, hr, hg'⟩ := stampError_origin _ _ q hq
    exact ⟨r, hr, hg.trans hg'⟩
  · exact stampError_origin _ _ p hp
  · obtain ⟨q, hq, hg⟩ := stampError_origin _ _ p hp
    exact ⟨q, hq, hg⟩
  · exact ⟨p, hp, rfl⟩

/-- Replacing the value at a key in place changes no key. -/
theorem replaceVal_keys (m : List (String × Dashboard)) (k : String) (v : Dashboard) :
    (m.map (fun p => if p.1 = k then (k, v) else p)).map Prod.fst = m.map Prod.fst := by
  induction m with
  | nil => rfl
  | cons p m ih =>
      by_cases h : p.1 = k <;> simp [h, ih]

/-- Keys after a Python dict assignment: unchanged when the key was present,
appended otherwise. -/
theorem dictInsert_keys (m : List (String × Dashboard)) (k : String) (v : Dashboard) :
    (dictInsert m k v).map Prod.fst =
      if k ∈ m.map Prod.fst then m.map Prod.fst else m.map Prod.fst ++ [k] := by
  unfold dictInsert
  split_ifs with h
  · exact replaceVal_keys m k v
  · simp

/-- A Python dict assignment preserves a property of the stored values. -/
theorem dictInsert_pred (P : Dashboard → Prop) (m : List (String × Dashboard))
    (k : String) (v : Dashboard) (hm : ∀ p ∈ m, P p.2) (hv : P v) :
    ∀ p ∈ dictInsert m k v, P p.2 := by
  intro p hp
  unfold dictInsert at hp
  split_ifs at hp with h
  · obtain ⟨q, hq, rfl⟩ := List.mem_map.mp hp
    by_cases hqk : q.1 = k
    · simpa [hqk] using hv
    · simpa [hqk] using hm q hq
  · rcases List.mem_append.mp hp with h1 | h1
    · exact hm p h1
    · simp only [List.mem_singleton] at h1
      subst h1
      exact hv

/-- The key set the dashboard-loading loop produces, computed on names alone:
fold the derived keys into an accumulator, skipping keys already present. -/
def pyKeysFrom (acc : List String) : List String → List String
  | [] => acc
  | k :: ks => pyKeysFrom (if k ∈ acc then acc else acc ++ [k]) ks

/-- The key set of the dashboard mapping, as a function of the directory
listing alone. -/
def keysOfFiles (files : List String) : List String :=
  pyKeysFrom [] (files.map dashboardKey)

/-- The keys of the loaded mapping depend only on the file names. -/
theorem loadDashboardsFrom_keys (gen : Nat) (parse : String → Except String (List Card)) :
    ∀ (files : List String) (acc : List (String × Dashboard)),
      (loadDashboardsFrom gen parse acc files).map Prod.fst
        = pyKeysFrom (acc.map Prod.fst) (files.map dashboardKey) := by
  intro files
  induction files with
  | nil => intro acc; rfl
  | cons f fs ih =>
      intro acc
      show (loadDashboardsFrom gen parse
              (dictInsert acc (dashboardKey f) (Dashboard.loadFile f gen (parse f))) fs).map Prod.fst
          = pyKeysFrom (acc.map Prod.fst) (dashboardKey f :: fs.map dashboardKey)
      rw [ih, dictInsert_keys]
      rfl

/-- Keys of the full mapping built from a directory listing. -/
theorem loadDashboards_keys (gen : Nat) (parse : String → Except String (List Card))
    (files : List String) :
    (loadDashboards gen parse files).map Prod.fst = keysOfFiles files :=
  loadDashboardsFrom_keys gen parse files []

/-- Membership in the accumulated key set. -/
theorem mem_pyKeysFrom :
    ∀ (ks acc : List String) (k : String), k ∈ pyKeysFrom acc ks ↔ k ∈ acc ∨ k ∈ ks := by
  intro ks
  induction ks with
  | nil => intro acc k; simp [pyKeysFrom]
  | cons k' ks ih =>
      intro acc k
      show k ∈ pyKeysFrom (if k' ∈ acc then acc else acc ++ [k']) ks ↔ _
      rw [ih]
      by_cases h : k' ∈ acc
      · simp only [if_pos h, List.mem_cons]
        constructor
        · rintro (h1 | h1)
          · exact Or.inl h1
          · exact Or.inr (Or.inr h1)
        · rintro (h1 | h1 | h1)
          · exact Or.inl h1
          · exact Or.inl (h1 ▸ h)
          · exact Or.inr h1
      · simp only [if_neg h, List.mem_append, List.mem_singleton, List.mem_cons]
        tauto

/-- The accumulated key set has no duplicate. -/
theorem pyKeysFrom_nodup :
    ∀ (ks acc : List String), acc.Nodup → (pyKeysFrom acc ks).Nodup := by
  intro ks
  induction ks with
  | nil => intro acc h; exact h
  | cons k' ks ih =>
      intro acc h
      show (pyKeysFrom (if k' ∈ acc then acc else acc ++ [k']) ks).Nodup
      by_cases hk : k' ∈ acc
      · rw [if_pos hk]; exact ih acc h
      · rw [if_neg hk]
        refine ih _ ?_
        simp [List.nodup_append, h, hk]

/-- Every dashboard created by the loading loop is stamped with the loading
generation. -/
theorem loadDashboardsFrom_gen (gen : Nat) (parse : String → Except String (List Card)) :
    ∀ (files : List String) (acc : List (String × Dashboard)),
      (∀ p ∈ acc, p.2.createdGen = gen) →
      ∀ p ∈ loadDashboardsFrom gen parse acc files, p.2.createdGen = gen := by
  intro files
  induction files with
  | nil => intro acc h; exact h
  | cons f fs ih =>
      intro acc h
      refine ih _ (dictInsert_pred (fun d => d.createdGen = gen) acc (dashboardKey f)
        (Dashboard.loadFile f gen (parse f)) h ?_)
      cases hp : parse f <;> simp [Dashboard.loadFile, hp]

/-- Generation stamp of the full loaded mapping. -/
theorem loadDashboards_gen (gen : Nat) (parse : String → Except String (List Card))
    (files : List String) :
    ∀ p ∈ loadDashboards gen parse files, p.2.createdGen = gen :=
  loadDashboardsFrom_gen gen parse files [] (by intro p hp; cases hp)

/-! ### Rewrite and frame lemmas for `build` and `init` -/

/-- Unfolding `build()` when `sass.compile` raises (line 162): only the
mutations of lines 96-103 happened, and the exception escapes. -/
theorem build_compile_error (dm : DashMachine) (env : BuildEnv) (e : String)
    (h : compile_theme (Settings.load true env.settingsParse).theme env.customThemes
           env.sassCompile = .error e) :
    DashMachine.build dm env =
      ({ dm with
          config_modifier_error := none,
          settings := some (Settings.load true env.settingsParse),
          query_providers :=
            (Settings.load true env.settingsParse).queryProviders.getD DEFAULT_QUERY_PROVIDERS },
       some e) := by
  unfold DashMachine.build
  rw [h]

/-- Unfolding `build()` when `sass.compile` succeeds: the whole ten-step
sequence runs and no exception escapes. -/
theorem build_compile_ok (dm : DashMachine) (env : BuildEnv) (css : String)
    (h : compile_theme (Settings.load true env.settingsParse).theme env.customThemes
           env.sassCompile = .ok css) :
    DashMachine.build dm env =
      ({ dm with
          config_modifier_error := none,
          settings :=
            some (if (Settings.load true env.settingsParse).error.isSome then
                    Settings.load false env.settingsParse
                  else
                    Settings.load true env.settingsParse),
          query_providers :=
            (Settings.load true env.settingsParse).queryProviders.getD DEFAULT_QUERY_PROVIDERS,
          compiled_css := some css,
          data_source_handler := some (DataSourceHandler.load env.dataSourcesParse),
          shared_cards := load_shared_cards env.sharedCardsParse,
          dashboards :=
            some (stampBuildErrors
                    (loadDashboards (dm.gen + 1) env.dashboardParse env.dashboardFiles)
                    (Settings.load true env.settingsParse).error
                    (DataSourceHandler.load env.dataSourcesParse).error),
          gen := dm.gen + 1 },
       none) := by
  unfold DashMachine.build
  rw [h]

/-- `build()` never touches `main_dashboard`. -/
theorem build_main_dashboard (dm : DashMachine) (env : BuildEnv) :
    (DashMachine.build dm env).1.main_dashboard = dm.main_dashboard := by
  rcases hc : compile_theme (Settings.load true env.settingsParse).theme env.customThemes
      env.sassCompile with e | css
  · rw [build_compile_error dm env e hc]
  · rw [build_compile_ok dm env css hc]

/-- `build()` never touches the per-dashboard watcher registrations. -/
theorem build_dashboard_file_watchers (dm : DashMachine) (env : BuildEnv) :
    (DashMachine.build dm env).1.dashboard_file_watchers = dm.dashboard_file_watchers := by
  rcases hc : compile_theme (Settings.load true env.settingsParse).theme env.customThemes
      env.sassCompile with e | css
  · rw [build_compile_error dm env e hc]
  · rw [build_compile_ok dm env css hc]

/-- `__init__` leaves `main_dashboard` as the `None` it assigned on line 58:
no later statement of the module writes to it. -/
theorem init_main_dashboard (env : BuildEnv) :
    (DashMachine.init env).1.main_dashboard = none := by
  have hmain := build_main_dashboard freshDashMachine env
  unfold DashMachine.init
  rcases hb : DashMachine.build freshDashMachine env with ⟨dm, oe⟩
  rw [hb] at hmain
  cases oe <;> simpa using hmain

/-! ### Concrete scenarios used to instantiate and to refute claims -/

/-- A startup environment on which every load succeeds: two dashboard files,
a settings file that sets a theme and a query-provider registry, one data
source, one shared card. -/
def envAllOk : BuildEnv :=
  { settingsParse := .ok { theme := "dark", queryProviders := some ⟨[("g", "google")]⟩ },
    customThemes := [],
    sassCompile := fun _ => .ok "css0",
    dataSourcesParse := .ok [("ds1", "cfg1")],
    sharedCardsParse := .ok [("card1", "c")],
    dashboardFiles := ["main.toml", "tools.toml"],
    dashboardParse := fun _ => .ok ["card"] }

/-- `envAllOk` after a new dashboard file `media.toml` appeared. -/
def envTwoBoards : BuildEnv :=
  { envAllOk with dashboardFiles := ["main.toml", "tools.toml", "media.toml"] }

/-- `envAllOk` with the theme stylesheet now failing to compile. -/
def envCompileFail : BuildEnv :=
  { envAllOk with sassCompile := fun _ => .error "CompileError: bad scss" }

/-- `envAllOk` with a malformed settings file. -/
def envSettingsBad : BuildEnv :=
  { envAllOk with settingsParse := .error "bad settings" }

/-- `envAllOk` with a malformed data-sources file. -/
def envDsBad : BuildEnv :=
  { envAllOk with dataSourcesParse := .error "bad ds" }

/-- `envAllOk` with malformed settings and data-sources files at once. -/
def envBothBad : BuildEnv :=
  { envAllOk with settingsParse := .error "bad settings",
                  dataSourcesParse := .error "bad ds" }

/-- `envAllOk` with an unreadable shared-cards file. -/
def envSharedBad : BuildEnv :=
  { envAllOk with sharedCardsParse := .error "bad shared cards" }

/-- `envAllOk` with a dashboard file whose name contains `.toml` twice. -/
def envTomlToml : BuildEnv :=
  { envAllOk with dashboardFiles := ["media.toml.toml"] }

/-- The orchestrator state right after a successful startup on `envAllOk`. -/
def dmStart : DashMachine := (DashMachine.init envAllOk).1

/-! ### C1 -/

/-- C1 counterexample: after a successful startup whose dashboard directory
contains `main.toml` (so a "main" dashboard exists), asking for a name with no
exact key match returns `none` — not the object `get_dashboard_by_name "main"`
returns — because the fallback `main_dashboard` field is still the `None` that
`__init__` assigned. -/
theorem C1_counterexample :
    dmStart.get_dashboard_by_name "nonexistent" = none ∧
    dmStart.get_dashboard_by_name "main" ≠ none := by
  decide

/-- C1 (amended): `get_dashboard_by_name` returns the dashboard on an exact key
match and otherwise returns the `main_dashboard` field; that field is `None`
from `__init__` (line 58) and neither `__init__` nor `build()` ever reassigns
it, so with no external assignment the fallback is none/absent rather than the
"main" dashboard object. -/
theorem C1_get_dashboard_fallback (dm : DashMachine) (env env' : BuildEnv)
    (boards : List (String × Dashboard)) (name : String)
    (hm : dm.dashboards = some boards) :
    (∀ d, boards.lookup name = some d → dm.get_dashboard_by_name name = some d) ∧
    (boards.lookup name = none → dm.get_dashboard_by_name name = dm.main_dashboard) ∧
    ((DashMachine.build dm env).1.main_dashboard = dm.main_dashboard) ∧
    ((DashMachine.init env').1.main_dashboard = none) := by
  refine ⟨?_, ?_, build_main_dashboard dm env, init_main_dashboard env'⟩
  · intro d hd
    simp [DashMachine.get_dashboard_by_name, hm, hd]
  · intro hd
    simp [DashMachine.get_dashboard_by_name, hm, hd]

/-- C1 witness: the amended statement at a concrete post-startup state. -/
theorem C1_get_dashboard_fallback_witness :
    ((∀ d, ((dmStart.dashboards.getD []).lookup "main") = some d →
        dmStart.get_dashboard_by_name "main" = some d) ∧
      (((dmStart.dashboards.getD []).lookup "main") = none →
        dmStart.get_dashboard_by_name "main" = dmStart.main_dashboard) ∧
      ((DashMachine.build dmStart envTwoBoards).1.main_dashboard = dmStart.main_dashboard) ∧
      ((DashMachine.init envAllOk).1.main_dashboard = none)) :=
  C1_get_dashboard_fallback dmStart envTwoBoards envAllOk (dmStart.dashboards.getD [])
    "main" (by decide)

/-! ### C2 -/

/-- C2 counterexample: a rebuild triggered after `media.toml` appeared yields a
mapping containing key "media", yet no Watch Subscription bound to the "media"
dashboard's card-reload routine exists — `build()` registered none; the watcher
list still covers only the startup generation. -/
theorem C2_counterexample :
    (((DashMachine.build dmStart envTwoBoards).1.dashboards.getD []).lookup "media").isSome
      = true ∧
    ((DashMachine.build dmStart envTwoBoards).1.dashboard_file_watchers.all
      (fun w => w.callback != WatchCallback.loadCards "media")) = true := by
  decide

/-- C2 (amended): per-dashboard Watch Subscriptions are registered exactly once,
by `__init__` after its initial `build()` — one per dashboard of the initial
mapping, on that dashboard's own source file, bound to its `load_cards` — and
`build()` itself never modifies the per-dashboard watcher list. -/
theorem C2_watchers_registered_once (dm : DashMachine) (env env' : BuildEnv)
    (dm' : DashMachine) (h : DashMachine.init env' = (dm', none)) :
    ((DashMachine.build dm env).1.dashboard_file_watchers = dm.dashboard_file_watchers) ∧
    dm'.dashboard_file_watchers =
      (dm'.dashboards.getD []).map
        (fun p => FileWatcher.mk p.2.toml_path .modified (.loadCards p.2.name)) := by
  refine ⟨build_dashboard_file_watchers dm env, ?_⟩
  unfold DashMachine.init at h
  rcases hb : DashMachine.build freshDashMachine env' with ⟨dmB, oe⟩
  rw [hb] at h
  cases oe with
  | some e => simp at h
  | none =>
      simp only [Prod.mk.injEq, and_true] at h
      subst h
      rfl

/-- C2 witness: the amended statement at a concrete startup and a concrete
follow-up rebuild. -/
theorem C2_watchers_registered_once_witness :
    ((DashMachine.build dmStart envTwoBoards).1.dashboard_file_watchers
        = dmStart.dashboard_file_watchers) ∧
    dmStart.dashboard_file_watchers =
      (dmStart.dashboards.getD []).map
        (fun p => FileWatcher.mk p.2.toml_path .modified (.loadCards p.2.name)) :=
  C2_watchers_registered_once dmStart envTwoBoards envAllOk dmStart (by decide)

/-! ### C3 -/

/-- C3 counterexample: on an input whose theme compilation fails, `build()`
does NOT complete — the CompileError escapes the call (second component is
`some`), refuting "still completes the overall rebuild without raising".  (The
previously compiled stylesheet does remain in place.) -/
theorem C3_counterexample :
    (DashMachine.build dmStart envCompileFail).2 = some "CompileError: bad scss" ∧
    (DashMachine.build dmStart envCompileFail).1.compiled_css = some "css0" := by
  decide

/-- C3 (amended): when theme compilation fails, the CompileError propagates out
of `build()` uncaught (the rebuild aborts right after the Settings step; nothing
catches or logs it), while the previously compiled stylesheet — and the previous
data sources, shared cards and dashboard mapping — remain in place. -/
theorem C3_compile_error_escapes (dm : DashMachine) (env : BuildEnv) (e : String)
    (h : env.sassCompile
           (themeScssFile (Settings.load true env.settingsParse).theme env.customThemes)
         = .error e) :
    (DashMachine.build dm env).2 = some e ∧
    (DashMachine.build dm env).1.compiled_css = dm.compiled_css ∧
    (DashMachine.build dm env).1.dashboards = dm.dashboards ∧
    (DashMachine.build dm env).1.data_source_handler = dm.data_source_handler ∧
    (DashMachine.build dm env).1.shared_cards = dm.shared_cards ∧
    (DashMachine.build dm env).1.settings = some (Settings.load true env.settingsParse) := by
  have hc : compile_theme (Settings.load true env.settingsParse).theme env.customThemes
      env.sassCompile = .error e := h
  rw [build_compile_error dm env e hc]
  exact ⟨rfl, rfl, rfl, rfl, rfl, rfl⟩

/-- C3 witness: the amended statement at a concrete failing compile. -/
theorem C3_compile_error_escapes_witness :
    (DashMachine.build dmStart envCompileFail).2 = some "CompileError: bad scss" ∧
    (DashMachine.build dmStart envCompileFail).1.compiled_css = dmStart.compiled_css ∧
    (DashMachine.build dmStart envCompileFail).1.dashboards = dmStart.dashboards ∧
    (DashMachine.build dmStart envCompileFail).1.data_source_handler
      = dmStart.data_source_handler ∧
    (DashMachine.build dmStart envCompileFail).1.shared_cards = dmStart.shared_cards ∧
    (DashMachine.build dmStart envCompileFail).1.settings
      = some (Settings.load true envCompileFail.settingsParse) :=
  C3_compile_error_escapes dmStart envCompileFail "CompileError: bad scss" rfl

/-! ### C4 -/

/-- C4 counterexample: on an input whose settings AND data-source files are both
malformed, the loaded Settings error is `some "bad settings"`, yet the "main"
dashboard of the resulting mapping carries `some "bad ds"` — not the settings
error text, refuting the claim for this malformed-settings input. -/
theorem C4_counterexample :
    (Settings.load true envBothBad.settingsParse).error = some "bad settings" ∧
    (((DashMachine.build dmStart envBothBad).1.dashboards.getD []).lookup "main").map
        Dashboard.error = some (some "bad ds") ∧
    ("bad ds" : String) ≠ "bad settings" := by
  decide

/-- C4 (amended): for every malformed global-settings input on which the
(fallback default) theme still compiles and the data-source load reports no
error, `build()` completes without raising, the loaded Settings has a non-empty
error, every Dashboard in the resulting mapping carries that same error text,
and the live Settings is replaced by a fresh default instance constructed
without reading the settings source (`read_toml=False`).  (When the data-source
load also fails, its error overwrites the settings error on every Dashboard —
see the stamping order, lines 119-126.) -/
theorem C4_settings_error_stamped (dm : DashMachine) (env : BuildEnv) (e css : String)
    (hs : env.settingsParse = .error e)
    (hcss : env.sassCompile (themeScssFile DEFAULT_THEME env.customThemes) = .ok css)
    (hds : (DataSourceHandler.load env.dataSourcesParse).error = none) :
    (DashMachine.build dm env).2 = none ∧
    (Settings.load true env.settingsParse).error = some e ∧
    (∀ boards, (DashMachine.build dm env).1.dashboards = some boards →
        ∀ p ∈ boards, p.2.error = some e) ∧
    (DashMachine.build dm env).1.settings =
      some { theme := DEFAULT_THEME, queryProviders := none, error := none,
             readToml := false } := by
  have hload : Settings.load true env.settingsParse =
      { theme := DEFAULT_THEME, queryProviders := none, error := some e, readToml := true } := by
    rw [hs]
    rfl
  have hc : compile_theme (Settings.load true env.settingsParse).theme env.customThemes
      env.sassCompile = .ok css := by
    unfold compile_theme
    rw [hload]
    exact hcss
  rw [build_compile_ok dm env css hc, hload, hds]
  refine ⟨rfl, rfl, ?_, ?_⟩
  · intro boards hb
    simp only at hb
    injection hb with hb
    subst hb
    exact stampBuildErrors_settings_error _ e
  · simp [Settings.load]

/-- C4 witness: the amended statement at a concrete malformed-settings input. -/
theorem C4_settings_error_stamped_witness :
    (DashMachine.build dmStart envSettingsBad).2 = none ∧
    (Settings.load true envSettingsBad.settingsParse).error = some "bad settings" ∧
    (∀ boards, (DashMachine.build dmStart envSettingsBad).1.dashboards = some boards →
        ∀ p ∈ boards, p.2.error = some "bad settings") ∧
    (DashMachine.build dmStart envSettingsBad).1.settings =
      some { theme := DEFAULT_THEME, queryProviders := none, error := none,
             readToml := false } :=
  C4_settings_error_stamped dmStart envSettingsBad "bad settings" "css0" rfl rfl rfl

/-! ### C5 -/

/-- C5: whenever the DataSourceHandler load reports an error and the rebuild
runs to completion, every Dashboard of the resulting mapping carries that error;
and the resulting Settings is unaffected by the data-source outcome — two
environments agreeing on everything the Settings pipeline reads (settings parse,
theme listing, compiler) yield the same resulting Settings, whatever their
data-source outcomes. -/
theorem C5_ds_error_stamped (dm : DashMachine) (env env' : BuildEnv) (e : String)
    (hds : (DataSourceHandler.load env.dataSourcesParse).error = some e)
    (hsucc : (DashMachine.build dm env).2 = none)
    (hS : env'.settingsParse = env.settingsParse)
    (hT : env'.customThemes = env.customThemes)
    (hC : env'.sassCompile = env.sassCompile) :
    (∀ boards, (DashMachine.build dm env).1.dashboards = some boards →
        ∀ p ∈ boards, p.2.error = some e) ∧
    (DashMachine.build dm env').1.settings = (DashMachine.build dm env).1.settings := by
  rcases hc : compile_theme (Settings.load true env.settingsParse).theme env.customThemes
      env.sassCompile with er | css
  · rw [build_compile_error dm env er hc] at hsucc
    exact absurd hsucc (by simp)
  · have hc' : compile_theme (Settings.load true env'.settingsParse).theme env'.customThemes
        env'.sassCompile = .ok css := by
      rw [hS, hT, hC]
      exact hc
    constructor
    · intro boards hb
      have hdash : (DashMachine.build dm env).1.dashboards
          = some (stampBuildErrors
              (loadDashboards (dm.gen + 1) env.dashboardParse env.dashboardFiles)
              (Settings.load true env.settingsParse).error
              (DataSourceHandler.load env.dataSourcesParse).error) := by
        rw [build_compile_ok dm env css hc]
      rw [hdash, hds] at hb
      injection hb with hb
      subst hb
      exact stampBuildErrors_ds_error _ _ e
    · rw [build_compile_ok dm env css hc, build_compile_ok dm env' css hc', hS]

/-- C5 witness: concrete malformed data-source input, compared against the
same input with the data sources intact. -/
theorem C5_ds_error_stamped_witness :
    (∀ boards, (DashMachine.build dmStart envDsBad).1.dashboards = some boards →
        ∀ p ∈ boards, p.2.error = some "bad ds") ∧
    (DashMachine.build dmStart envAllOk).1.settings
      = (DashMachine.build dmStart envDsBad).1.settings :=
  C5_ds_error_stamped dmStart envDsBad envAllOk "bad ds" rfl (by decide) rfl rfl rfl

/-! ### C10 -/

/-- C10: when both the Settings load and the DataSourceHandler load fail in one
completed `build()`, the second stamping pass overwrites the first: every
Dashboard of the final mapping carries exactly the data-source error (so, when
the two texts differ, no Dashboard carries the settings text), while the live
Settings is still replaced by the non-reloading default instance. -/
theorem C10_ds_error_overwrites (dm : DashMachine) (env : BuildEnv) (e1 e2 css : String)
    (hs : env.settingsParse = .error e1)
    (hds : env.dataSourcesParse = .error e2)
    (hcss : env.sassCompile (themeScssFile DEFAULT_THEME env.customThemes) = .ok css) :
    (DashMachine.build dm env).2 = none ∧
    (∀ boards, (DashMachine.build dm env).1.dashboards = some boards →
        ∀ p ∈ boards, p.2.error = some e2 ∧ (e1 ≠ e2 → p.2.error ≠ some e1)) ∧
    (DashMachine.build dm env).1.settings =
      some { theme := DEFAULT_THEME, queryProviders := none, error := none,
             readToml := false } := by
  have hload : Settings.load true env.settingsParse =
      { theme := DEFAULT_THEME, queryProviders := none, error := some e1, readToml := true } := by
    rw [hs]
    rfl
  have hdsl : DataSourceHandler.load env.dataSourcesParse
      = { dataSources := [], error := some e2 } := by
    rw [hds]
    rfl
  have hc : compile_theme (Settings.load true env.settingsParse).theme env.customThemes
      env.sassCompile = .ok css := by
    unfold compile_theme
    rw [hload]
    exact hcss
  rw [build_compile_ok dm env css hc, hload, hdsl]
  refine ⟨rfl, ?_, ?_⟩
  · intro boards hb
    simp only at hb
    injection hb with hb
    subst hb
    intro p hp
    have herr := stampBuildErrors_ds_error _ (some e1) e2 p hp
    refine ⟨herr, fun hne => ?_⟩
    rw [herr]
    intro hcontra
    injection hcontra with hcontra
    exact hne hcontra.symm
  · simp [Settings.load]

/-- C10 witness: the statement at a concrete doubly-malformed input. -/
theorem C10_ds_error_overwrites_witness :
    (DashMachine.build dmStart envBothBad).2 = none ∧
    (∀ boards, (DashMachine.build dmStart envBothBad).1.dashboards = some boards →
        ∀ p ∈ boards, p.2.error = some "bad ds" ∧
          ("bad settings" ≠ "bad ds" → p.2.error ≠ some "bad settings")) ∧
    (DashMachine.build dmStart envBothBad).1.settings =
      some { theme := DEFAULT_THEME, queryProviders := none, error := none,
             readToml := false } :=
  C10_ds_error_overwrites dmStart envBothBad "bad settings" "bad ds" "css0" rfl rfl rfl

/-! ### C6 -/

/-- C6: a completed `build()` publishes a mapping whose key list is computed
from the directory entries enumerated during that rebuild alone
(`keysOfFiles`), every Dashboard in it was created in this rebuild's
generation, and none of them is an object of any earlier generation. -/
theorem C6_mapping_replaced_wholesale (dm : DashMachine) (env : BuildEnv)
    (m₀ : List (String × Dashboard))
    (hold : dm.dashboards = some m₀)
    (hgen : ∀ p ∈ m₀, p.2.createdGen ≤ dm.gen)
    (hsucc : (DashMachine.build dm env).2 = none) :
    ∃ m, (DashMachine.build dm env).1.dashboards = some m ∧
      m.map Prod.fst = keysOfFiles env.dashboardFiles ∧
      (∀ p ∈ m, p.2.createdGen = dm.gen + 1) ∧
      (∀ p ∈ m, ∀ q ∈ m₀, p.2 ≠ q.2) := by
  rcases hc : compile_theme (Settings.load true env.settingsParse).theme env.customThemes
      env.sassCompile with er | css
  · rw [build_compile_error dm env er hc] at hsucc
    exact absurd hsucc (by simp)
  · refine ⟨stampBuildErrors
        (loadDashboards (dm.gen + 1) env.dashboardParse env.dashboardFiles)
        (Settings.load true env.settingsParse).error
        (DataSourceHandler.load env.dataSourcesParse).error,
      by rw [build_compile_ok dm env css hc], ?_, ?_, ?_⟩
    · rw [stampBuildErrors_keys, loadDashboards_keys]
    · intro p hp
      obtain ⟨q, hq, hgq⟩ := stampBuildErrors_origin _ _ _ p hp
      rw [hgq]
      exact loadDashboards_gen _ _ _ q hq
    · intro p hp q hq hpq
      have hpg : p.2.createdGen = dm.gen + 1 := by
        obtain ⟨r, hr, hgr⟩ := stampBuildErrors_origin _ _ _ p hp
        rw [hgr]
        exact loadDashboards_gen _ _ _ r hr
      have hqg := hgen q hq
      rw [← hpq, hpg] at hqg
      omega

/-- C6 witness: the statement at the concrete post-startup state, rebuilt on an
enlarged directory. -/
theorem C6_mapping_replaced_wholesale_witness :
    ∃ m, (DashMachine.build dmStart envTwoBoards).1.dashboards = some m ∧
      m.map Prod.fst = keysOfFiles envTwoBoards.dashboardFiles ∧
      (∀ p ∈ m, p.2.createdGen = dmStart.gen + 1) ∧
      (∀ p ∈ m, ∀ q ∈ (dmStart.dashboards.getD []), p.2 ≠ q.2) :=
  C6_mapping_replaced_wholesale dmStart envTwoBoards (dmStart.dashboards.getD [])
    (by decide) (by decide) (by decide)

/-! ### C7 -/

/-- C7 counterexample: for the directory entry `media.toml.toml` (base name
with its extension stripped: `media.toml`), the mapping's only key is `media`
— `file.replace(".toml", "")` deletes every occurrence of the substring, so no
Dashboard sits under the extension-stripped name. -/
theorem C7_counterexample :
    ((DashMachine.init envTomlToml).1.dashboards.getD []).map Prod.fst = ["media"] ∧
    ((DashMachine.init envTomlToml).1.dashboards.getD []).lookup "media.toml" = none := by
  decide

/-- C7 (amended): for every entry of the dashboard directory, a completed
`build()` leaves exactly one Dashboard in the mapping under the key obtained by
deleting every occurrence of the substring ".toml" from the entry's file name
(not by stripping one trailing extension); entries whose derived keys collide
share a single mapping slot, the later entry's Dashboard winning. -/
theorem C7_key_strips_every_toml (dm : DashMachine) (env : BuildEnv)
    (hsucc : (DashMachine.build dm env).2 = none) :
    ∀ boards, (DashMachine.build dm env).1.dashboards = some boards →
      ∀ file ∈ env.dashboardFiles,
        (boards.map Prod.fst).count (dashboardKey file) = 1 := by
  rcases hc : compile_theme (Settings.load true env.settingsParse).theme env.customThemes
      env.sassCompile with er | css
  · rw [build_compile_error dm env er hc] at hsucc
    exact absurd hsucc (by simp)
  · intro boards hb file hf
    have hdash : (DashMachine.build dm env).1.dashboards
        = some (stampBuildErrors
            (loadDashboards (dm.gen + 1) env.dashboardParse env.dashboardFiles)
            (Settings.load true env.settingsParse).error
            (DataSourceHandler.load env.dataSourcesParse).error) := by
      rw [build_compile_ok dm env css hc]
    rw [hdash] at hb
    injection hb with hb
    subst hb
    rw [stampBuildErrors_keys, loadDashboards_keys]
    have hmem : dashboardKey file ∈ keysOfFiles env.dashboardFiles := by
      unfold keysOfFiles
      rw [mem_pyKeysFrom]
      exact Or.inr (List.mem_map_of_mem _ hf)
    have hnodup : (keysOfFiles env.dashboardFiles).Nodup :=
      pyKeysFrom_nodup _ _ List.nodup_nil
    exact List.count_eq_one_of_mem hnodup hmem

/-- C7 witness: the amended statement at the concrete `media.toml.toml` input. -/
theorem C7_key_strips_every_toml_witness :
    ((((DashMachine.build dmStart envTomlToml).1.dashboards.getD []).map Prod.fst).count
      (dashboardKey "media.toml.toml")) = 1 :=
  C7_key_strips_every_toml dmStart envTomlToml (by decide)
    ((DashMachine.build dmStart envTomlToml).1.dashboards.getD []) (by decide)
    "media.toml.toml" (by decide)

/-! ### C8 -/

/-- C8: `load_shared_cards` is total (no exception crosses its boundary — it is
a total function here because the source catches every exception); on a load
failure it returns the empty card table; and the shared-cards outcome is
invisible to every other configuration object: two builds from environments
agreeing on everything but the shared-cards parse produce the same escaping
exception, shared error holder, Settings, DataSourceHandler and dashboards. -/
theorem C8_shared_cards_contained (e : String) (dm : DashMachine) (env env' : BuildEnv)
    (hS : env'.settingsParse = env.settingsParse)
    (hT : env'.customThemes = env.customThemes)
    (hC : env'.sassCompile = env.sassCompile)
    (hD : env'.dataSourcesParse = env.dataSourcesParse)
    (hF : env'.dashboardFiles = env.dashboardFiles)
    (hP : env'.dashboardParse = env.dashboardParse) :
    load_shared_cards (.error e) = [] ∧
    (DashMachine.build dm env').2 = (DashMachine.build dm env).2 ∧
    (DashMachine.build dm env').1.config_modifier_error
      = (DashMachine.build dm env).1.config_modifier_error ∧
    (DashMachine.build dm env').1.settings = (DashMachine.build dm env).1.settings ∧
    (DashMachine.build dm env').1.data_source_handler
      = (DashMachine.build dm env).1.data_source_handler ∧
    (DashMachine.build dm env').1.dashboards = (DashMachine.build dm env).1.dashboards := by
  rcases hc : compile_theme (Settings.load true env.settingsParse).theme env.customThemes
      env.sassCompile with er | css
  · have hc' : compile_theme (Settings.load true env'.settingsParse).theme env'.customThemes
        env'.sassCompile = .error er := by
      rw [hS, hT, hC]
      exact hc
    rw [build_compile_error dm env er hc, build_compile_error dm env' er hc', hS]
    exact ⟨rfl, rfl, rfl, rfl, rfl, rfl⟩
  · have hc' : compile_theme (Settings.load true env'.settingsParse).theme env'.customThemes
        env'.sassCompile = .ok css := by
      rw [hS, hT, hC]
      exact hc
    rw [build_compile_ok dm env css hc, build_compile_ok dm env' css hc', hS, hD, hF, hP]
    exact ⟨rfl, rfl, rfl, rfl, rfl, rfl⟩

/-- C8 witness: the statement at a concrete unreadable shared-cards file,
compared against the same input with the file intact. -/
theorem C8_shared_cards_contained_witness :
    load_shared_cards (.error "bad shared cards") = [] ∧
    (DashMachine.build dmStart envSharedBad).2 = (DashMachine.build dmStart envAllOk).2 ∧
    (DashMachine.build dmStart envSharedBad).1.config_modifier_error
      = (DashMachine.build dmStart envAllOk).1.config_modifier_error ∧
    (DashMachine.build dmStart envSharedBad).1.settings
      = (DashMachine.build dmStart envAllOk).1.settings ∧
    (DashMachine.build dmStart envSharedBad).1.data_source_handler
      = (DashMachine.build dmStart envAllOk).1.data_source_handler ∧
    (DashMachine.build dmStart envSharedBad).1.dashboards
      = (DashMachine.build dmStart envAllOk).1.dashboards :=
  C8_shared_cards_contained "bad shared cards" dmStart envAllOk envSharedBad
    rfl rfl rfl rfl rfl rfl

/-! ### C9 -/

/-- C9: `change_theme(name)` updates only the live Settings' theme field and
re-runs theme compilation: the dashboard mapping, DataSourceHandler, shared
cards, query-provider registry, shared error holder, `main_dashboard`, watcher
registrations and the generation counter are all untouched; the compiled
stylesheet changes exactly as the compiler call dictates. -/
theorem C9_change_theme_frame (dm : DashMachine) (s : Settings) (customThemes : List String)
    (sass : String → Except String String) (name : String)
    (hs : dm.settings = some s) :
    ((dm.change_theme customThemes sass name).1.settings = some { s with theme := name }) ∧
    ((dm.change_theme customThemes sass name).1.dashboards = dm.dashboards) ∧
    ((dm.change_theme customThemes sass name).1.data_source_handler
      = dm.data_source_handler) ∧
    ((dm.change_theme customThemes sass name).1.shared_cards = dm.shared_cards) ∧
    ((dm.change_theme customThemes sass name).1.query_providers = dm.query_providers) ∧
    ((dm.change_theme customThemes sass name).1.config_modifier_error
      = dm.config_modifier_error) ∧
    ((dm.change_theme customThemes sass name).1.main_dashboard = dm.main_dashboard) ∧
    ((dm.change_theme customThemes sass name).1.dashboard_file_watchers
      = dm.dashboard_file_watchers) ∧
    ((dm.change_theme customThemes sass name).1.gen = dm.gen) ∧
    ((dm.change_theme customThemes sass name).1.compiled_css =
       match compile_theme name customThemes sass with
       | .ok css => some css
       | .error _ => dm.compiled_css) := by
  rcases hc : compile_theme name customThemes sass with er | css <;>
    simp [DashMachine.change_theme, hs, hc]

/-- C9 witness: the statement at the concrete post-startup state and a fresh
theme name. -/
theorem C9_change_theme_frame_witness :
    ((dmStart.change_theme [] (fun _ => Except.ok "css9") "solarized").1.settings
      = some { ({ theme := "dark", queryProviders := some ⟨[("g", "google")]⟩,
                  error := none, readToml := true } : Settings) with theme := "solarized" }) ∧
    ((dmStart.change_theme [] (fun _ => Except.ok "css9") "solarized").1.dashboards
      = dmStart.dashboards) ∧
    ((dmStart.change_theme [] (fun _ => Except.ok "css9") "solarized").1.data_source_handler
      = dmStart.data_source_handler) ∧
    ((dmStart.change_theme [] (fun _ => Except.ok "css9") "solarized").1.shared_cards
      = dmStart.shared_cards) ∧
    ((dmStart.change_theme [] (fun _ => Except.ok "css9") "solarized").1.query_providers
      = dmStart.query_providers) ∧
    ((dmStart.change_theme [] (fun _ => Except.ok "css9") "solarized").1.config_modifier_error
      = dmStart.config_modifier_error) ∧
    ((dmStart.change_theme [] (fun _ => Except.ok "css9") "solarized").1.main_dashboard
      = dmStart.main_dashboard) ∧
    ((dmStart.change_theme [] (fun _ => Except.ok "css9") "solarized").1.dashboard_file_watchers
      = dmStart.dashboard_file_watchers) ∧
    ((dmStart.change_theme [] (fun _ => Except.ok "css9") "solarized").1.gen = dmStart.gen) ∧
    ((dmStart.change_theme [] (fun _ => Except.ok "css9") "solarized").1.compiled_css =
       match compile_theme "solarized" [] (fun _ => Except.ok "css9") with
       | .ok css => some css
       | .error _ => dmStart.compiled_css) :=
  C9_change_theme_frame dmStart
    { theme := "dark", queryProviders := some ⟨[("g", "google")]⟩,
      error := none, readToml := true } [] (fun _ => Except.ok "css9") "solarized" (by decide)
